import Mathlib

/-!
Shallow embedding of the blinkChat room/relay server.

Namespace `Part000` models the socket handlers of the passcode-based server
variant (src/unnamed/part_000): the room registry with forward
(passcode → room data) and reverse (roomId → passcode) maps, capacity-2
admission with a reconnection exception, the one-shot expiry timer and the
5-second disconnect grace period.

Namespace `ServerJs` models the handlers of src/server.js that differ from
that variant: the payload-validating `sendMessage` handler and the periodic
cleanup sweep over the room map.

JavaScript `Map`s become association lists, socket.io sockets become explicit
records, and each event handler is a pure function from server state and the
event arguments to the new state together with the list of deliveries
(recipient socket id, event) it emits.  Timers are returned as data and fired
by explicit functions, so timer-driven behaviour is the application of the
firing function to whatever state holds when the timer goes off.
-/

namespace BlinkChat

/-- A JavaScript value as far as the handlers inspect one: the relay treats
message payloads opaquely, but the `server.js` variant tests truthiness and
`typeof message !== "string"` on them. -/
inductive JsVal where
  | vstr (s : String)
  | vnum (n : Int)
  | vbool (b : Bool)
  | vnull
  | vundef
deriving DecidableEq

/-- JavaScript truthiness for the values of `JsVal` (`""`, `0`, `false`,
`null` and `undefined` are falsy). -/
def JsVal.truthy : JsVal → Bool
  | .vstr s => s != ""
  | .vnum n => n != 0
  | .vbool b => b
  | .vnull => false
  | .vundef => false

/-- Whether `typeof v === "string"` holds. -/
def JsVal.isString : JsVal → Bool
  | .vstr _ => true
  | _ => false

/-- The JavaScript idiom `x || d` for an optional string `x`: `undefined`
and the empty string fall back to the default. -/
def jsOr (o : Option String) (d : String) : String :=
  match o with
  | some s => if s = "" then d else s
  | none => d

/-- JavaScript's `String.prototype.trim`: drop leading and trailing
whitespace (written out over the character list so that concrete instances
reduce definitionally). -/
def jsTrim (s : String) : String :=
  ⟨((s.data.dropWhile Char.isWhitespace).reverse.dropWhile
      Char.isWhitespace).reverse⟩

/-- Interpolating a possibly-undefined string into a template literal:
JavaScript prints the text `undefined` for a missing value. -/
def jsText (o : Option String) : String :=
  match o with
  | some s => s
  | none => "undefined"

/-- `Map.get`: first binding of the key in the association list (the lists we
build never bind a key twice, so position is immaterial). -/
def mapGet {α : Type} : List (String × α) → String → Option α
  | [], _ => none
  | e :: rest, k => if e.1 = k then some e.2 else mapGet rest k

/-- `Map.has`. -/
def mapHas {α : Type} (m : List (String × α)) (k : String) : Bool :=
  (mapGet m k).isSome

/-- `Map.set`: bind the key, dropping any previous binding. -/
def mapSet {α : Type} (m : List (String × α)) (k : String) (v : α) :
    List (String × α) :=
  (k, v) :: m.filter (fun e => e.1 != k)

/-- `Map.delete`: remove every binding of the key. -/
def mapDel {α : Type} (m : List (String × α)) (k : String) :
    List (String × α) :=
  m.filter (fun e => e.1 != k)

/-- A connected socket: its id, the ad-hoc fields `socket.roomId` and
`socket.userName` the handlers attach, and the set of adapter rooms the
socket has joined (we omit the automatic self-id room, which never equals a
generated room identifier). -/
structure Socket where
  sid : Nat
  roomId : Option String
  userName : Option String
  joinedRooms : List String
deriving DecidableEq

/-- The events the server emits to clients. -/
inductive ServerEvent where
  | roomCreated (passcode roomId : String) (expireAt : Nat)
  | joinSuccess (roomId : String) (passcode : Option String) (expireAt : Nat)
  | systemMessage (text : String)
  | newMessage (message : JsVal) (senderName : Option String)
  | showTyping
  | hideTyping
deriving DecidableEq

/-- `io.sockets.adapter.rooms.get(rid)` as the list of socket ids currently
joined to the room `rid` (an absent map entry corresponds to the empty
list). -/
def membersOf (sockets : List Socket) (rid : String) : List Nat :=
  (sockets.filter (fun s => decide (rid ∈ s.joinedRooms))).map Socket.sid

/-- `io.to(rid).emit(ev)`: deliver `ev` to every socket in the room. -/
def emitAll (sockets : List Socket) (rid : String) (ev : ServerEvent) :
    List (Nat × ServerEvent) :=
  (membersOf sockets rid).map (fun i => (i, ev))

/-- `socket.to(rid).emit(ev)`: deliver `ev` to every socket in the room
except the sender. -/
def emitOthers (sockets : List Socket) (rid : String) (sender : Nat)
    (ev : ServerEvent) : List (Nat × ServerEvent) :=
  ((membersOf sockets rid).filter (fun i => i != sender)).map (fun i => (i, ev))

/-- `io.socketsLeave(rid)`: remove the room from every socket's joined set. -/
def socketsLeaveAll (sockets : List Socket) (rid : String) : List Socket :=
  sockets.map (fun s =>
    { s with joinedRooms := s.joinedRooms.filter (fun r => r != rid) })

namespace Part000

/-- The value stored in the `rooms` map of src/unnamed/part_000:
`passcode → { roomId, expireAt }`. -/
structure RoomData where
  roomId : String
  expireAt : Nat
deriving DecidableEq

/-- The shared mutable state of src/unnamed/part_000: the forward map
`rooms : passcode → RoomData`, the reverse map `roomIds : roomId → passcode`,
and the connected sockets. -/
structure ServerState where
  rooms : List (String × RoomData)
  roomIds : List (String × String)
  sockets : List Socket
deriving DecidableEq

/-- The one-shot expiry timer armed by `createRoom` (`setTimeout`, capturing
the generated passcode and room id). -/
structure ExpiryTimer where
  passcode : String
  roomId : String
  delayMs : Nat
deriving DecidableEq

/-- The grace timer armed by the disconnect handler (`setTimeout`, capturing
`socket.roomId` and the resolved user name). -/
structure GraceTimer where
  roomId : String
  userName : String
  delayMs : Nat
deriving DecidableEq

/-- Look up a connected socket by id. -/
def getSocket (st : ServerState) (sid : Nat) : Option Socket :=
  st.sockets.find? (fun s => s.sid == sid)

/-- Mutate the socket with the given id in place. -/
def updateSocket (st : ServerState) (sid : Nat) (f : Socket → Socket) :
    ServerState :=
  { st with sockets := st.sockets.map (fun s => if s.sid == sid then f s else s) }

/-- One draw of `Math.floor(100000 + Math.random() * 900000).toString()`,
where `d < 900000` models the floored value of `Math.random() * 900000`. -/
def passcodeOfDraw (d : Nat) : String :=
  toString (100000 + d)

/-- The `generateUniquePasscode` do-while loop of src/unnamed/part_000,
drawing successive random values from `draws` and retrying while the drawn
passcode collides with a live room; `none` means the modelled draw stream
ran out before a free value appeared (the real loop keeps drawing). -/
def generateUniquePasscode (roomsMap : List (String × RoomData)) :
    List Nat → Option String
  | [] => none
  | d :: rest =>
    let passcode := passcodeOfDraw d
    if mapHas roomsMap passcode then generateUniquePasscode roomsMap rest
    else some passcode

/-- The `createRoom` handler of src/unnamed/part_000: generate a unique
passcode, store both mappings with `expireAt = now + 40 minutes`, join the
creator to the fresh room id, emit `roomCreated` to the creator and arm the
one-shot expiry timer.  `rid` stands for the `crypto.randomBytes` room id
and `draws` for the random passcode draws. -/
def createRoom (st : ServerState) (sid : Nat) (draws : List Nat) (rid : String)
    (now : Nat) :
    Option (ServerState × List (Nat × ServerEvent) × ExpiryTimer) :=
  match generateUniquePasscode st.rooms draws with
  | none => none
  | some passcode =>
    let expiresIn := 40 * 60 * 1000
    let expireAt := now + expiresIn
    let st1 : ServerState :=
      { rooms := mapSet st.rooms passcode ⟨rid, expireAt⟩,
        roomIds := mapSet st.roomIds rid passcode,
        sockets := st.sockets }
    let st2 := updateSocket st1 sid (fun s =>
      { s with
        joinedRooms := if rid ∈ s.joinedRooms then s.joinedRooms
                       else rid :: s.joinedRooms,
        roomId := some rid })
    some (st2, [(sid, .roomCreated passcode rid expireAt)],
      ⟨passcode, rid, expiresIn⟩)

/-- The `roomId` branch of the join lookup: resolve the reverse map and then
the forward map (an empty-string id is falsy in the source's `else if`). -/
def joinLookupById (st : ServerState) : Option String → Option RoomData
  | none => none
  | some rid =>
    if rid = "" then none
    else
      match mapGet st.roomIds rid with
      | some pCode => mapGet st.rooms pCode
      | none => none

/-- The lookup performed at the top of the `joinRoom` handler of
src/unnamed/part_000: a truthy passcode is trimmed and resolved in the
forward map, otherwise a truthy roomId goes through the reverse map. -/
def joinLookup (st : ServerState) (passcode roomIdArg : Option String) :
    Option RoomData :=
  match passcode with
  | some p => if p = "" then joinLookupById st roomIdArg
              else mapGet st.rooms (jsTrim p)
  | none => joinLookupById st roomIdArg

/-- `socket.rooms` of the requesting connection (empty when unknown). -/
def socketRoomsOf (st : ServerState) (sid : Nat) : List String :=
  match getSocket st sid with
  | some s => s.joinedRooms
  | none => []

/-- The `joinRoom` handler of src/unnamed/part_000: resolve the key, reject
with `Room is full.` when the room already has two members and the requester
is not one of them, otherwise join, record membership and user name, emit
`joinSuccess` to the joiner and — only when the room was empty before the
join (`isReconnecting` is `members && members.size > 0`) — broadcast the
joined notice to the room. -/
def joinRoom (st : ServerState) (sid : Nat)
    (passcode roomIdArg name : Option String) :
    ServerState × List (Nat × ServerEvent) :=
  match joinLookup st passcode roomIdArg with
  | none => (st, [(sid, .systemMessage "Invalid or expired passcode.")])
  | some roomData =>
    let members := membersOf st.sockets roomData.roomId
    let isReconnecting := decide (0 < members.length)
    if 2 ≤ members.length ∧ roomData.roomId ∉ socketRoomsOf st sid then
      (st, [(sid, .systemMessage "Room is full.")])
    else
      let uName := jsOr name "Anonymous"
      let st1 := updateSocket st sid (fun s =>
        { s with
          joinedRooms := if roomData.roomId ∈ s.joinedRooms then s.joinedRooms
                         else roomData.roomId :: s.joinedRooms,
          roomId := some roomData.roomId,
          userName := some uName })
      (st1,
        (sid, ServerEvent.joinSuccess roomData.roomId
            (mapGet st.roomIds roomData.roomId) roomData.expireAt) ::
          (if isReconnecting then []
           else emitAll st1.sockets roomData.roomId
              (.systemMessage (uName ++ " joined the chat."))))

/-- The `sendMessage` handler of src/unnamed/part_000: silently drop when the
sender has no recorded room, otherwise relay the payload to every other
member of that room. -/
def sendMessage (st : ServerState) (sid : Nat) (message : JsVal) :
    List (Nat × ServerEvent) :=
  match getSocket st sid with
  | none => []
  | some s =>
    match s.roomId with
    | none => []
    | some rid =>
      if rid = "" then []
      else emitOthers st.sockets rid sid (.newMessage message s.userName)

/-- The `quitRoom` handler of src/unnamed/part_000: notify the peer, leave
the adapter room and clear the membership field. -/
def quitRoom (st : ServerState) (sid : Nat) :
    ServerState × List (Nat × ServerEvent) :=
  match getSocket st sid with
  | none => (st, [])
  | some s =>
    match s.roomId with
    | none => (st, [])
    | some rid =>
      if rid = "" then (st, [])
      else
        let emits := emitOthers st.sockets rid sid
          (.systemMessage (jsText s.userName ++ " left."))
        let st1 := updateSocket st sid (fun t =>
          { t with joinedRooms := t.joinedRooms.filter (fun r => r != rid),
                   roomId := none })
        (st1, emits)

/-- The `disconnect` handler of src/unnamed/part_000: the transport removes
the socket, nothing is broadcast immediately, and when the socket had a
recorded room a 5000 ms grace timer capturing room and user name is armed. -/
def disconnectHandler (st : ServerState) (sid : Nat) :
    ServerState × List (Nat × ServerEvent) × Option GraceTimer :=
  let sock := getSocket st sid
  let st1 : ServerState :=
    { st with sockets := st.sockets.filter (fun s => s.sid != sid) }
  match sock with
  | none => (st1, [], none)
  | some s =>
    match s.roomId with
    | none => (st1, [], none)
    | some rid =>
      if rid = "" then (st1, [], none)
      else (st1, [], some ⟨rid, jsOr s.userName "User", 5000⟩)

/-- The body of the grace timer of src/unnamed/part_000: re-check the room's
current occupancy and broadcast the offline notice only when fewer than two
members remain. -/
def graceFire (st : ServerState) (t : GraceTimer) : List (Nat × ServerEvent) :=
  if (membersOf st.sockets t.roomId).length < 2 then
    emitAll st.sockets t.roomId (.systemMessage (t.userName ++ " went offline."))
  else []

/-- The body of the one-shot expiry timer of src/unnamed/part_000: if the
passcode is still live, delete both mappings, notify the room and force all
sockets out of it; otherwise do nothing. -/
def expiryFire (st : ServerState) (passcode roomId : String) :
    ServerState × List (Nat × ServerEvent) :=
  if mapHas st.rooms passcode then
    ({ rooms := mapDel st.rooms passcode,
       roomIds := mapDel st.roomIds roomId,
       sockets := socketsLeaveAll st.sockets roomId },
     emitAll st.sockets roomId (.systemMessage "⚠️ Room expired."))
  else (st, [])

/-- A room id is live when some passcode entry of the forward map stores it. -/
def roomLiveB (roomsMap : List (String × RoomData)) (rid : String) : Bool :=
  roomsMap.any (fun e => e.2.roomId == rid)

/-- A single session satisfies the spec's membership invariant: its recorded
room field is empty or references a live room. -/
def sessionOk (roomsMap : List (String × RoomData)) (s : Socket) : Bool :=
  match s.roomId with
  | none => true
  | some rid => roomLiveB roomsMap rid

/-- The spec's session invariant over the whole state: every connected
socket's recorded room membership is empty or references a live room. -/
def sessionInvariant (st : ServerState) : Bool :=
  st.sockets.all (sessionOk st.rooms)

end Part000

namespace ServerJs

/-- The value stored in the `rooms` map of src/server.js:
`roomId → { createdAt, expireAt }`. -/
structure RoomInfo where
  createdAt : Nat
  expireAt : Nat
deriving DecidableEq

/-- The shared state of src/server.js: the room map keyed by room id, and the
connected sockets. -/
structure ServerState where
  rooms : List (String × RoomInfo)
  sockets : List Socket
deriving DecidableEq

/-- The `sendMessage` handler of src/server.js: reject a missing or dead room
and an empty or non-string payload with a sender-only `systemMessage`,
otherwise relay the payload to the other members of the room. -/
def sendMessage (st : ServerState) (sock : Socket) (message : JsVal) :
    List (Nat × ServerEvent) :=
  match sock.roomId with
  | none => [(sock.sid, .systemMessage "Invalid or missing room.")]
  | some room =>
    if room = "" ∨ mapHas st.rooms room = false then
      [(sock.sid, .systemMessage "Invalid or missing room.")]
    else if message.truthy = false ∨ message.isString = false then
      [(sock.sid, .systemMessage "Empty or invalid message.")]
    else
      emitOthers st.sockets room sock.sid
        (.newMessage message (some (jsOr sock.userName "User")))

/-- One step of the periodic cleanup sweep of src/server.js: when the visited
entry is past its expiry, delete it, notify the room and force the sockets
out of it. -/
def sweepStep (now : Nat) (acc : ServerState × List (Nat × ServerEvent))
    (entry : String × RoomInfo) : ServerState × List (Nat × ServerEvent) :=
  if entry.2.expireAt < now then
    ({ rooms := mapDel acc.1.rooms entry.1,
       sockets := socketsLeaveAll acc.1.sockets entry.1 },
     acc.2 ++ emitAll acc.1.sockets entry.1
        (.systemMessage "⚠️ Room expired and has been closed."))
  else acc

/-- The `setInterval` cleanup sweep of src/server.js: visit every room entry
and delete the expired ones. -/
def cleanupSweep (st : ServerState) (now : Nat) :
    ServerState × List (Nat × ServerEvent) :=
  st.rooms.foldl (sweepStep now) (st, [])

end ServerJs

/-! Basic lemmas about the association-list map operations. -/

theorem mapGet_mapDel_self {α : Type} (m : List (String × α)) (k : String) :
    mapGet (mapDel m k) k = none := by
  induction m with
  | nil => rfl
  | cons e rest ih =>
    by_cases h : e.1 = k
    · simp [mapDel, List.filter_cons, h, bne_self_eq_false] at ih ⊢
      simpa [mapDel] using ih
    · simp [mapDel, List.filter_cons, bne_iff_ne, h, mapGet] at ih ⊢
      simpa [mapDel] using ih

theorem mapHas_mapDel_self {α : Type} (m : List (String × α)) (k : String) :
    mapHas (mapDel m k) k = false := by
  simp [mapHas, mapGet_mapDel_self]

theorem mem_mapDel {α : Type} {m : List (String × α)} {k : String}
    {e : String × α} : e ∈ mapDel m k ↔ e ∈ m ∧ e.1 ≠ k := by
  simp [mapDel, List.mem_filter, bne_iff_ne]

theorem mapGet_mem {α : Type} {m : List (String × α)} {k : String} {v : α}
    (h : mapGet m k = some v) : (k, v) ∈ m := by
  induction m with
  | nil => simp [mapGet] at h
  | cons e rest ih =>
    by_cases he : e.1 = k
    · simp [mapGet, he] at h
      subst he
      subst h
      simp
    · simp [mapGet, he] at h
      exact List.mem_cons_of_mem _ (ih h)

theorem mapGet_none_keys {α : Type} {m : List (String × α)} {k : String}
    (h : mapGet m k = none) : ∀ e ∈ m, e.1 ≠ k := by
  induction m with
  | nil => simp
  | cons e rest ih =>
    by_cases he : e.1 = k
    · simp [mapGet, he] at h
    · simp [mapGet, he] at h
      intro d hd
      rcases List.mem_cons.mp hd with hd | hd
      · rw [hd]
        exact he
      · exact ih h d hd

/-! Lemmas about passcode generation. -/

theorem generateUniquePasscode_spec
    (m : List (String × Part000.RoomData)) (draws : List Nat) (pc : String)
    (hd : ∀ d ∈ draws, d < 900000)
    (h : Part000.generateUniquePasscode m draws = some pc) :
    (∃ n, 100000 ≤ n ∧ n ≤ 999999 ∧ pc = toString n) ∧ mapGet m pc = none := by
  induction draws with
  | nil => simp [Part000.generateUniquePasscode] at h
  | cons d rest ih =>
    by_cases hc : mapHas m (Part000.passcodeOfDraw d) = true
    · rw [Part000.generateUniquePasscode, if_pos hc] at h
      exact ih (fun x hx => hd x (List.mem_cons_of_mem _ hx)) h
    · rw [Part000.generateUniquePasscode, if_neg hc] at h
      have hpc : pc = Part000.passcodeOfDraw d := (Option.some.inj h).symm
      constructor
      · refine ⟨100000 + d, by omega, ?_, by rw [hpc]; rfl⟩
        have := hd d (List.mem_cons_self d rest)
        omega
      · rw [hpc]
        cases hget : mapGet m (Part000.passcodeOfDraw d) with
        | none => rfl
        | some v => exact absurd (by simp [mapHas, hget]) hc

/-- Claim C3: every successful `createRoom` call returns a passcode that is the
decimal string of a number in the range 100000–999999, that collides with no
currently-live room at the instant of creation, and announces it to the
creator via `roomCreated` with the 40-minute expiry. -/
theorem createRoom_passcode_unique
    (st : Part000.ServerState) (sid : Nat) (draws : List Nat) (rid : String)
    (now : Nat) (st2 : Part000.ServerState)
    (emits : List (Nat × ServerEvent)) (timer : Part000.ExpiryTimer)
    (hd : ∀ d ∈ draws, d < 900000)
    (hc : Part000.createRoom st sid draws rid now = some (st2, emits, timer)) :
    (∃ n, 100000 ≤ n ∧ n ≤ 999999 ∧ timer.passcode = toString n) ∧
    mapGet st.rooms timer.passcode = none ∧
    emits = [(sid, ServerEvent.roomCreated timer.passcode rid
      (now + 40 * 60 * 1000))] := by
  cases hg : Part000.generateUniquePasscode st.rooms draws with
  | none =>
    rw [Part000.createRoom, hg] at hc
    exact absurd hc (by simp)
  | some pc =>
    rw [Part000.createRoom, hg] at hc
    simp only [Option.some.injEq, Prod.mk.injEq] at hc
    obtain ⟨-, hemits, htimer⟩ := hc
    have hpcs : timer.passcode = pc := by rw [← htimer]
    obtain ⟨hrange, hfree⟩ := generateUniquePasscode_spec st.rooms draws pc hd hg
    refine ⟨by rw [hpcs]; exact hrange, by rw [hpcs]; exact hfree, ?_⟩
    rw [← hemits, hpcs]

/-- Witness for C3 at a concrete input: a single in-range draw on the empty
registry yields passcode 100000. -/
theorem createRoom_passcode_unique_witness :
    (∃ n, 100000 ≤ n ∧ n ≤ 999999 ∧
      (Part000.ExpiryTimer.mk "100000" "r1" (40 * 60 * 1000)).passcode =
        toString n) ∧
    mapGet (Part000.ServerState.mk [] [] []).rooms
      (Part000.ExpiryTimer.mk "100000" "r1" (40 * 60 * 1000)).passcode = none ∧
    [(1, ServerEvent.roomCreated "100000" "r1" (7 + 40 * 60 * 1000))] =
      [(1, ServerEvent.roomCreated
        (Part000.ExpiryTimer.mk "100000" "r1" (40 * 60 * 1000)).passcode "r1"
        (7 + 40 * 60 * 1000))] :=
  createRoom_passcode_unique (Part000.ServerState.mk [] [] []) 1 [0] "r1" 7
    (Part000.ServerState.mk
      [("100000", ⟨"r1", 7 + 40 * 60 * 1000⟩)] [("r1", "100000")] [])
    [(1, ServerEvent.roomCreated "100000" "r1" (7 + 40 * 60 * 1000))]
    (Part000.ExpiryTimer.mk "100000" "r1" (40 * 60 * 1000))
    (by decide) (by decide)

/-- Claim C2: when the expiry deletion path actually deletes a live room, both the
passcode → room and roomId → passcode mappings are removed, and a subsequent
join-time lookup by either the passcode or the room id signals not-found. -/
theorem expiry_removes_mappings
    (st : Part000.ServerState) (passcode roomId : String)
    (hp : mapHas st.rooms passcode = true)
    (htrim : jsTrim passcode = passcode) :
    mapGet (Part000.expiryFire st passcode roomId).1.rooms passcode = none ∧
    mapGet (Part000.expiryFire st passcode roomId).1.roomIds roomId = none ∧
    Part000.joinLookup (Part000.expiryFire st passcode roomId).1


      (some passcode) none = none ∧
    Part000.joinLookupById (Part000.expiryFire st passcode roomId).1
      (some roomId) = none := by
  rw [Part000.expiryFire, if_pos hp]
  refine ⟨mapGet_mapDel_self _ _, mapGet_mapDel_self _ _, ?_, ?_⟩
  · rw [Part000.joinLookup]
    by_cases hpe : passcode = ""
    · rw [if_pos hpe]
      rfl
    · rw [if_neg hpe, htrim]
      exact mapGet_mapDel_self _ _
  · rw [Part000.joinLookupById]
    by_cases hre : roomId = ""
    · rw [if_pos hre]
    · rw [if_neg hre, mapGet_mapDel_self]

/-- Witness for C2 at a concrete state holding one live room. -/
theorem expiry_removes_mappings_witness :
    mapGet (Part000.expiryFire
      (Part000.ServerState.mk [("123456", ⟨"r1", 50⟩)] [("r1", "123456")]
        [Socket.mk 1 (some "r1") (some "Alice") ["r1"]])
      "123456" "r1").1.rooms "123456" = none ∧
    mapGet (Part000.expiryFire
      (Part000.ServerState.mk [("123456", ⟨"r1", 50⟩)] [("r1", "123456")]
        [Socket.mk 1 (some "r1") (some "Alice") ["r1"]])
      "123456" "r1").1.roomIds "r1" = none ∧
    Part000.joinLookup (Part000.expiryFire
      (Part000.ServerState.mk [("123456", ⟨"r1", 50⟩)] [("r1", "123456")]
        [Socket.mk 1 (some "r1") (some "Alice") ["r1"]])
      "123456" "r1").1 (some "123456") none = none ∧
    Part000.joinLookupById (Part000.expiryFire
      (Part000.ServerState.mk [("123456", ⟨"r1", 50⟩)] [("r1", "123456")]
        [Socket.mk 1 (some "r1") (some "Alice") ["r1"]])
      "123456" "r1").1 (some "r1") = none :=
  expiry_removes_mappings
    (Part000.ServerState.mk [("123456", ⟨"r1", 50⟩)] [("r1", "123456")]
      [Socket.mk 1 (some "r1") (some "Alice") ["r1"]])
    "123456" "r1" (by decide) (by decide)

/-! Lemmas for the idempotence of the two deletion paths. -/

theorem sweepFold_nop (now : Nat) (l : List (String × ServerJs.RoomInfo))
    (acc : ServerJs.ServerState × List (Nat × ServerEvent))
    (h : ∀ e ∈ l, ¬ e.2.expireAt < now) :
    l.foldl (ServerJs.sweepStep now) acc = acc := by
  induction l generalizing acc with
  | nil => rfl
  | cons d rest ih =>
    rw [List.foldl_cons, ServerJs.sweepStep,
      if_neg (h d (List.mem_cons_self d rest))]
    exact ih acc (fun e he => h e (List.mem_cons_of_mem _ he))

theorem sweepFold_expired_dead (now : Nat)
    (l : List (String × ServerJs.RoomInfo)) :
    ∀ acc : ServerJs.ServerState × List (Nat × ServerEvent),
    (∀ e ∈ acc.1.rooms, e.2.expireAt < now →
      ∃ d ∈ l, d.1 = e.1 ∧ d.2.expireAt < now) →
    ∀ e ∈ (l.foldl (ServerJs.sweepStep now) acc).1.rooms,
      ¬ e.2.expireAt < now := by
  induction l with
  | nil =>
    intro acc hinv e he hexp
    obtain ⟨d, hd, -⟩ := hinv e he hexp
    exact absurd hd (List.not_mem_nil d)
  | cons d rest ih =>
    intro acc hinv
    rw [List.foldl_cons]
    apply ih
    intro e he hexp
    by_cases hdexp : d.2.expireAt < now
    · rw [ServerJs.sweepStep, if_pos hdexp] at he
      obtain ⟨hmem, hne⟩ := mem_mapDel.mp he
      obtain ⟨w, hw, hweq, hwexp⟩ := hinv e hmem hexp
      refine ⟨w, ?_, hweq, hwexp⟩
      rcases List.mem_cons.mp hw with hwd | hwr
      · exact absurd (by rw [← hweq, hwd]) hne
      · exact hwr
    · rw [ServerJs.sweepStep, if_neg hdexp] at he
      obtain ⟨w, hw, hweq, hwexp⟩ := hinv e he hexp
      refine ⟨w, ?_, hweq, hwexp⟩
      rcases List.mem_cons.mp hw with hwd | hwr
      · exact absurd (by rw [← hwd]; exact hwexp) hdexp
      · exact hwr

theorem expiryFire_absent (st : Part000.ServerState) (passcode roomId : String)
    (h : mapHas st.rooms passcode = false) :
    Part000.expiryFire st passcode roomId = (st, []) := by
  rw [Part000.expiryFire, if_neg (by simp [h])]

theorem cleanupSweep_no_expired (st : ServerJs.ServerState) (now : Nat) :
    ∀ e ∈ (ServerJs.cleanupSweep st now).1.rooms, ¬ e.2.expireAt < now := by
  apply sweepFold_expired_dead now st.rooms (st, [])
  intro e he hexp
  exact ⟨e, he, rfl, hexp⟩

theorem getSocket_mem {st : Part000.ServerState} {sid : Nat} {s : Socket}
    (h : Part000.getSocket st sid = some s) :
    s ∈ st.sockets ∧ s.sid = sid :=
  ⟨List.mem_of_find?_eq_some h, by simpa using List.find?_some h⟩

theorem membersOf_congr (l : List Socket) (g : Socket → Socket) (rid : String)
    (h : ∀ s ∈ l, (g s).sid = s.sid ∧
      (rid ∈ (g s).joinedRooms ↔ rid ∈ s.joinedRooms)) :
    membersOf (l.map g) rid = membersOf l rid := by
  induction l with
  | nil => rfl
  | cons a l ih =>
    have ha := h a (List.mem_cons_self a l)
    have hrec := ih (fun s hs => h s (List.mem_cons_of_mem _ hs))
    simp only [membersOf, List.map_cons, List.filter_cons] at hrec ⊢
    by_cases hm : rid ∈ a.joinedRooms
    · rw [if_pos (by simp [ha.2.mpr hm]), if_pos (by simp [hm])]
      simp only [List.map_cons]
      rw [ha.1, hrec]
    · rw [if_neg (by simp [ha.2, hm]), if_neg (by simp [hm])]
      exact hrec

/-- Claim C8: both deletion paths are idempotent.  Firing the one-shot expiry timer
of the passcode variant a second time on the same room leaves the state
unchanged and broadcasts nothing, and running the periodic cleanup sweep of
server.js a second time at the same instant is likewise a no-op. -/
theorem deletion_idempotent :
    (∀ (st : Part000.ServerState) (passcode roomId : String),
      Part000.expiryFire (Part000.expiryFire st passcode roomId).1
        passcode roomId = ((Part000.expiryFire st passcode roomId).1, [])) ∧
    (∀ (st : ServerJs.ServerState) (now : Nat),
      ServerJs.cleanupSweep (ServerJs.cleanupSweep st now).1 now =
        ((ServerJs.cleanupSweep st now).1, [])) := by
  constructor
  · intro st passcode roomId
    have hfree :
        mapHas (Part000.expiryFire st passcode roomId).1.rooms passcode =
          false := by
      by_cases hp : mapHas st.rooms passcode = true
      · rw [Part000.expiryFire, if_pos hp]
        exact mapHas_mapDel_self _ _
      · rw [Part000.expiryFire, if_neg hp]
        simpa using hp
    exact expiryFire_absent _ _ _ hfree
  · intro st now
    rw [ServerJs.cleanupSweep]
    exact sweepFold_nop now _ _
      (fun e he => cleanupSweep_no_expired st now e he)

/-- Claim C1: when a room already has two members and the requesting connection is
not one of them, `joinRoom` rejects the request with the capacity error and
changes nothing; and whatever the requester, no `joinRoom` call changes the
member list of a room that currently holds two occupants. -/
theorem joinRoom_capacity (st : Part000.ServerState) (sid : Nat)
    (passcode roomIdArg name : Option String) (rd : Part000.RoomData)
    (hnd : (st.sockets.map Socket.sid).Nodup)
    (hl : Part000.joinLookup st passcode roomIdArg = some rd)
    (hfull : 2 ≤ (membersOf st.sockets rd.roomId).length) :
    (rd.roomId ∉ Part000.socketRoomsOf st sid →
      Part000.joinRoom st sid passcode roomIdArg name =
        (st, [(sid, ServerEvent.systemMessage "Room is full.")])) ∧
    membersOf (Part000.joinRoom st sid passcode roomIdArg name).1.sockets
      rd.roomId = membersOf st.sockets rd.roomId := by
  constructor
  · intro hmem
    simp only [Part000.joinRoom, hl]
    rw [if_pos ⟨hfull, hmem⟩]
  · by_cases hmem : rd.roomId ∈ Part000.socketRoomsOf st sid
    · simp only [Part000.joinRoom, hl]
      rw [if_neg (fun hc => hc.2 hmem)]
      simp only [Part000.updateSocket]
      apply membersOf_congr
      intro s hs
      by_cases hsid : s.sid == sid
      · cases hg : Part000.getSocket st sid with
        | none =>
          rw [Part000.socketRoomsOf, hg] at hmem
          exact absurd hmem (List.not_mem_nil _)
        | some s0 =>
          rw [Part000.socketRoomsOf, hg] at hmem
          obtain ⟨hs0mem, hs0sid⟩ := getSocket_mem hg
          have hseq : s = s0 :=
            List.inj_on_of_nodup_map hnd hs hs0mem
              (by rw [hs0sid]; simpa using hsid)
          rw [if_pos hsid]
          subst hseq
          refine ⟨rfl, ?_⟩
          rw [if_pos hmem]
      · rw [if_neg hsid]
        exact ⟨rfl, Iff.rfl⟩
    · simp only [Part000.joinRoom, hl]
      rw [if_pos ⟨hfull, hmem⟩]

/-- Witness for C1: a stranger socket 3 is rejected from the full room and
the member list is unchanged. -/
theorem joinRoom_capacity_witness :
    (("r1" : String) ∉ Part000.socketRoomsOf
        (Part000.ServerState.mk [("123456", ⟨"r1", 50⟩)] [("r1", "123456")]
          [Socket.mk 1 (some "r1") (some "Alice") ["r1"],
           Socket.mk 2 (some "r1") (some "Bob") ["r1"],
           Socket.mk 3 none none []]) 3 →
      Part000.joinRoom
        (Part000.ServerState.mk [("123456", ⟨"r1", 50⟩)] [("r1", "123456")]
          [Socket.mk 1 (some "r1") (some "Alice") ["r1"],
           Socket.mk 2 (some "r1") (some "Bob") ["r1"],
           Socket.mk 3 none none []]) 3 (some "123456") none (some "Zed") =
        (Part000.ServerState.mk [("123456", ⟨"r1", 50⟩)] [("r1", "123456")]
          [Socket.mk 1 (some "r1") (some "Alice") ["r1"],
           Socket.mk 2 (some "r1") (some "Bob") ["r1"],
           Socket.mk 3 none none []],
         [(3, ServerEvent.systemMessage "Room is full.")])) ∧
    membersOf (Part000.joinRoom
        (Part000.ServerState.mk [("123456", ⟨"r1", 50⟩)] [("r1", "123456")]
          [Socket.mk 1 (some "r1") (some "Alice") ["r1"],
           Socket.mk 2 (some "r1") (some "Bob") ["r1"],
           Socket.mk 3 none none []]) 3 (some "123456") none
        (some "Zed")).1.sockets "r1" =
      membersOf
        [Socket.mk 1 (some "r1") (some "Alice") ["r1"],
         Socket.mk 2 (some "r1") (some "Bob") ["r1"],
         Socket.mk 3 none none []] "r1" :=
  joinRoom_capacity
    (Part000.ServerState.mk [("123456", ⟨"r1", 50⟩)] [("r1", "123456")]
      [Socket.mk 1 (some "r1") (some "Alice") ["r1"],
       Socket.mk 2 (some "r1") (some "Bob") ["r1"],
       Socket.mk 3 none none []]) 3 (some "123456") none (some "Zed")
    ⟨"r1", 50⟩ (by decide) (by decide) (by decide)

/-- Claim C10: a rejected join leaves everything unchanged.  When the key
does not resolve, or the room is full and the requester is not a member, the
handler returns the state untouched and emits exactly one `systemMessage` to
the requester — no membership is recorded and nothing reaches the room. -/
theorem joinRoom_reject_no_mutation (st : Part000.ServerState) (sid : Nat)
    (passcode roomIdArg name : Option String) :
    (Part000.joinLookup st passcode roomIdArg = none →
      Part000.joinRoom st sid passcode roomIdArg name =
        (st,
          [(sid, ServerEvent.systemMessage "Invalid or expired passcode.")])) ∧
    (∀ rd, Part000.joinLookup st passcode roomIdArg = some rd →
      2 ≤ (membersOf st.sockets rd.roomId).length →
      rd.roomId ∉ Part000.socketRoomsOf st sid →
      Part000.joinRoom st sid passcode roomIdArg name =
        (st, [(sid, ServerEvent.systemMessage "Room is full.")])) := by
  constructor
  · intro h
    simp only [Part000.joinRoom, h]
  · intro rd h hfull hmem
    simp only [Part000.joinRoom, h]
    rw [if_pos ⟨hfull, hmem⟩]

/-- Witness for C10: both rejection branches evaluated at concrete inputs. -/
theorem joinRoom_reject_no_mutation_witness :
    (Part000.joinRoom
      (Part000.ServerState.mk [("123456", ⟨"r1", 50⟩)] [("r1", "123456")]
        [Socket.mk 1 (some "r1") (some "Alice") ["r1"],
         Socket.mk 2 (some "r1") (some "Bob") ["r1"],
         Socket.mk 3 none none []]) 3 (some "999999") none none =
      (Part000.ServerState.mk [("123456", ⟨"r1", 50⟩)] [("r1", "123456")]
        [Socket.mk 1 (some "r1") (some "Alice") ["r1"],
         Socket.mk 2 (some "r1") (some "Bob") ["r1"],
         Socket.mk 3 none none []],
       [(3, ServerEvent.systemMessage "Invalid or expired passcode.")])) ∧
    (Part000.joinRoom
      (Part000.ServerState.mk [("123456", ⟨"r1", 50⟩)] [("r1", "123456")]
        [Socket.mk 1 (some "r1") (some "Alice") ["r1"],
         Socket.mk 2 (some "r1") (some "Bob") ["r1"],
         Socket.mk 3 none none []]) 3 (some "123456") none none =
      (Part000.ServerState.mk [("123456", ⟨"r1", 50⟩)] [("r1", "123456")]
        [Socket.mk 1 (some "r1") (some "Alice") ["r1"],
         Socket.mk 2 (some "r1") (some "Bob") ["r1"],
         Socket.mk 3 none none []],
       [(3, ServerEvent.systemMessage "Room is full.")])) :=
  ⟨(joinRoom_reject_no_mutation
      (Part000.ServerState.mk [("123456", ⟨"r1", 50⟩)] [("r1", "123456")]
        [Socket.mk 1 (some "r1") (some "Alice") ["r1"],
         Socket.mk 2 (some "r1") (some "Bob") ["r1"],
         Socket.mk 3 none none []]) 3 (some "999999") none none).1 (by decide),
   (joinRoom_reject_no_mutation
      (Part000.ServerState.mk [("123456", ⟨"r1", 50⟩)] [("r1", "123456")]
        [Socket.mk 1 (some "r1") (some "Alice") ["r1"],
         Socket.mk 2 (some "r1") (some "Bob") ["r1"],
         Socket.mk 3 none none []]) 3 (some "123456") none none).2
     ⟨"r1", 50⟩ (by decide) (by decide) (by decide)⟩

/-- Claim C4 (evaluation at the failing input): in the part_000 handler a
fresh second connection joining a one-occupant room is classified as a
reconnection (`isReconnecting` is just `members.size > 0`), so the call
returns only `joinSuccess` to the joiner and the existing occupant receives
no "joined" notice at all, contradicting the claimed n=1 → n=2 broadcast. -/
theorem join_second_occupant_silent :
    Part000.joinRoom
      (Part000.ServerState.mk [("123456", ⟨"r1", 999⟩)] [("r1", "123456")]
        [Socket.mk 1 (some "r1") (some "Alice") ["r1"],
         Socket.mk 2 none none []]) 2 (some "123456") none (some "Bob") =
      (Part000.ServerState.mk [("123456", ⟨"r1", 999⟩)] [("r1", "123456")]
        [Socket.mk 1 (some "r1") (some "Alice") ["r1"],
         Socket.mk 2 (some "r1") (some "Bob") ["r1"]],
       [(2, ServerEvent.joinSuccess "r1" (some "123456") 999)]) ∧
    ∀ d ∈ (Part000.joinRoom
      (Part000.ServerState.mk [("123456", ⟨"r1", 999⟩)] [("r1", "123456")]
        [Socket.mk 1 (some "r1") (some "Alice") ["r1"],
         Socket.mk 2 none none []]) 2 (some "123456") none (some "Bob")).2,
      d.1 ≠ 1 := by
  decide

/-- Claim C7: a `sendMessage` call from a session with room membership
relays the payload, unchanged, to exactly the other current occupants of
that room: every delivery is the verbatim `newMessage` to a member other
than the sender, and every member other than the sender receives it. -/
theorem sendMessage_relays_to_others (st : Part000.ServerState) (sid : Nat)
    (s : Socket) (rid : String) (message : JsVal)
    (hs : Part000.getSocket st sid = some s) (hr : s.roomId = some rid)
    (hne : rid ≠ "") :
    (∀ d ∈ Part000.sendMessage st sid message,
      d.2 = ServerEvent.newMessage message s.userName ∧ d.1 ≠ sid ∧
        d.1 ∈ membersOf st.sockets rid) ∧
    (∀ m ∈ membersOf st.sockets rid, m ≠ sid →
      (m, ServerEvent.newMessage message s.userName) ∈
        Part000.sendMessage st sid message) := by
  simp only [Part000.sendMessage, hs, hr, if_neg hne]
  constructor
  · intro d hd
    simp only [emitOthers, List.mem_map, List.mem_filter] at hd
    obtain ⟨i, ⟨hi, hine⟩, heq⟩ := hd
    rw [← heq]
    exact ⟨rfl, bne_iff_ne.mp hine, hi⟩
  · intro m hm hmne
    simp only [emitOthers, List.mem_map, List.mem_filter]
    exact ⟨m, ⟨hm, bne_iff_ne.mpr hmne⟩, rfl⟩

/-- Witness for C7: in a two-member room, a message from socket 2 reaches
socket 1 and only socket 1, never the sender. -/
theorem sendMessage_relays_to_others_witness :
    (∀ d ∈ Part000.sendMessage
      (Part000.ServerState.mk [("123456", ⟨"r1", 50⟩)] [("r1", "123456")]
        [Socket.mk 1 (some "r1") (some "Alice") ["r1"],
         Socket.mk 2 (some "r1") (some "Bob") ["r1"]]) 2
      (JsVal.vstr "hi"),
      d.2 = ServerEvent.newMessage (JsVal.vstr "hi") (some "Bob") ∧
        d.1 ≠ 2 ∧
        d.1 ∈ membersOf
          [Socket.mk 1 (some "r1") (some "Alice") ["r1"],
           Socket.mk 2 (some "r1") (some "Bob") ["r1"]] "r1") ∧
    (∀ m ∈ membersOf
        [Socket.mk 1 (some "r1") (some "Alice") ["r1"],
         Socket.mk 2 (some "r1") (some "Bob") ["r1"]] "r1", m ≠ 2 →
      (m, ServerEvent.newMessage (JsVal.vstr "hi") (some "Bob")) ∈
        Part000.sendMessage
          (Part000.ServerState.mk [("123456", ⟨"r1", 50⟩)] [("r1", "123456")]
            [Socket.mk 1 (some "r1") (some "Alice") ["r1"],
             Socket.mk 2 (some "r1") (some "Bob") ["r1"]]) 2
          (JsVal.vstr "hi")) :=
  sendMessage_relays_to_others
    (Part000.ServerState.mk [("123456", ⟨"r1", 50⟩)] [("r1", "123456")]
      [Socket.mk 1 (some "r1") (some "Alice") ["r1"],
       Socket.mk 2 (some "r1") (some "Bob") ["r1"]]) 2
    (Socket.mk 2 (some "r1") (some "Bob") ["r1"]) "r1" (JsVal.vstr "hi")
    (by decide) (by decide) (by decide)

/-- Contrast for claim C5: the server.js `sendMessage` handler does validate
its payload — an empty or non-string payload is never relayed, the handler's
entire output being a single `systemMessage` delivered to the sender alone
(`Empty or invalid message.` when the room checks pass, `Invalid or missing
room.` otherwise).  This is the behaviour the claim describes; the part_000
handler lacks the check, which is the divergence recorded for C5. -/
theorem sendMessage_rejects_invalid_payload (st : ServerJs.ServerState)
    (sock : Socket) (message : JsVal)
    (h : message.truthy = false ∨ message.isString = false) :
    ∃ text, ServerJs.sendMessage st sock message =
      [(sock.sid, ServerEvent.systemMessage text)] := by
  cases hr : sock.roomId with
  | none => exact ⟨"Invalid or missing room.", by simp [ServerJs.sendMessage, hr]⟩
  | some room =>
    by_cases hro : room = "" ∨ mapHas st.rooms room = false
    · exact ⟨"Invalid or missing room.",
        by simp only [ServerJs.sendMessage, hr]; rw [if_pos hro]⟩
    · exact ⟨"Empty or invalid message.",
        by simp only [ServerJs.sendMessage, hr]; rw [if_neg hro, if_pos h]⟩

/-- Concrete instance of the server.js contrast: an empty-string payload
from a member of a live room produces exactly the sender-only rejection
notice. -/
theorem sendMessage_rejects_invalid_payload_witness :
    ∃ text, ServerJs.sendMessage
      (ServerJs.ServerState.mk [("r1", ⟨0, 50⟩)]
        [Socket.mk 1 (some "r1") (some "Alice") ["r1"],
         Socket.mk 2 (some "r1") (some "Bob") ["r1"]])
      (Socket.mk 2 (some "r1") (some "Bob") ["r1"]) (JsVal.vstr "") =
      [(2, ServerEvent.systemMessage text)] :=
  sendMessage_rejects_invalid_payload
    (ServerJs.ServerState.mk [("r1", ⟨0, 50⟩)]
      [Socket.mk 1 (some "r1") (some "Alice") ["r1"],
       Socket.mk 2 (some "r1") (some "Bob") ["r1"]])
    (Socket.mk 2 (some "r1") (some "Bob") ["r1"]) (JsVal.vstr "")
    (Or.inl (by decide))

/-- Claim C6: disconnecting a room member broadcasts nothing immediately and
arms a 5000 ms grace timer (within the specified 5–8 s window) capturing the
room and user name; when the timer fires, occupancy is re-checked and the
offline notice is broadcast to the room exactly when fewer than two
occupants remain at that moment. -/
theorem disconnect_grace (st : Part000.ServerState) (sid : Nat) (s : Socket)
    (rid : String) (hs : Part000.getSocket st sid = some s)
    (hr : s.roomId = some rid) (hne : rid ≠ "") :
    (Part000.disconnectHandler st sid).2.1 = [] ∧
    (Part000.disconnectHandler st sid).2.2 =
      some (Part000.GraceTimer.mk rid (jsOr s.userName "User") 5000) ∧
    (∀ (st2 : Part000.ServerState) (t : Part000.GraceTimer),
      (membersOf st2.sockets t.roomId).length < 2 →
      Part000.graceFire st2 t =
        emitAll st2.sockets t.roomId
          (ServerEvent.systemMessage (t.userName ++ " went offline."))) ∧
    (∀ (st2 : Part000.ServerState) (t : Part000.GraceTimer),
      2 ≤ (membersOf st2.sockets t.roomId).length →
      Part000.graceFire st2 t = []) := by
  refine ⟨?_, ?_, ?_, ?_⟩
  · simp only [Part000.disconnectHandler, hs, hr]
    rw [if_neg hne]
  · simp only [Part000.disconnectHandler, hs, hr]
    rw [if_neg hne]
  · intro st2 t h
    rw [Part000.graceFire, if_pos h]
  · intro st2 t h
    rw [Part000.graceFire, if_neg (by omega)]

/-- Witness for C6: socket 2 of a two-member room disconnects; the timer data
is as claimed, and firing it against the post-disconnect one-member state
broadcasts the offline notice while firing it against a refilled two-member
state stays silent. -/
theorem disconnect_grace_witness :
    (Part000.disconnectHandler
      (Part000.ServerState.mk [("123456", ⟨"r1", 50⟩)] [("r1", "123456")]
        [Socket.mk 1 (some "r1") (some "Alice") ["r1"],
         Socket.mk 2 (some "r1") (some "Bob") ["r1"]]) 2).2.1 = [] ∧
    (Part000.disconnectHandler
      (Part000.ServerState.mk [("123456", ⟨"r1", 50⟩)] [("r1", "123456")]
        [Socket.mk 1 (some "r1") (some "Alice") ["r1"],
         Socket.mk 2 (some "r1") (some "Bob") ["r1"]]) 2).2.2 =
      some (Part000.GraceTimer.mk "r1" "Bob" 5000) ∧
    (∀ (st2 : Part000.ServerState) (t : Part000.GraceTimer),
      (membersOf st2.sockets t.roomId).length < 2 →
      Part000.graceFire st2 t =
        emitAll st2.sockets t.roomId
          (ServerEvent.systemMessage (t.userName ++ " went offline."))) ∧
    (∀ (st2 : Part000.ServerState) (t : Part000.GraceTimer),
      2 ≤ (membersOf st2.sockets t.roomId).length →
      Part000.graceFire st2 t = []) :=
  disconnect_grace
    (Part000.ServerState.mk [("123456", ⟨"r1", 50⟩)] [("r1", "123456")]
      [Socket.mk 1 (some "r1") (some "Alice") ["r1"],
       Socket.mk 2 (some "r1") (some "Bob") ["r1"]]) 2
    (Socket.mk 2 (some "r1") (some "Bob") ["r1"]) "r1"
    (by decide) (by decide) (by decide)

/-! Lemmas about room liveness for the session-membership invariant. -/

theorem generateUniquePasscode_fresh
    {m : List (String × Part000.RoomData)} {draws : List Nat} {pc : String}
    (h : Part000.generateUniquePasscode m draws = some pc) :
    mapGet m pc = none := by
  induction draws with
  | nil => simp [Part000.generateUniquePasscode] at h
  | cons d rest ih =>
    by_cases hc : mapHas m (Part000.passcodeOfDraw d) = true
    · rw [Part000.generateUniquePasscode, if_pos hc] at h
      exact ih h
    · rw [Part000.generateUniquePasscode, if_neg hc] at h
      rw [← Option.some.inj h]
      cases hget : mapGet m (Part000.passcodeOfDraw d) with
      | none => rfl
      | some v => exact absurd (by simp [mapHas, hget]) hc

theorem roomLiveB_of_mapGet {m : List (String × Part000.RoomData)} {k : String}
    {v : Part000.RoomData} (h : mapGet m k = some v) :
    Part000.roomLiveB m v.roomId = true :=
  List.any_eq_true.mpr ⟨(k, v), mapGet_mem h, by simp⟩

theorem roomLiveB_mono_set {m : List (String × Part000.RoomData)} {pc : String}
    {v : Part000.RoomData} {rid : String} (hfresh : mapGet m pc = none)
    (h : Part000.roomLiveB m rid = true) :
    Part000.roomLiveB (mapSet m pc v) rid = true := by
  obtain ⟨e, hem, hpe⟩ := List.any_eq_true.mp h
  refine List.any_eq_true.mpr ⟨e, ?_, hpe⟩
  rw [mapSet]
  apply List.mem_cons_of_mem
  rw [List.mem_filter]
  exact ⟨hem, bne_iff_ne.mpr (mapGet_none_keys hfresh e hem)⟩

theorem sessionOk_mono_set {m : List (String × Part000.RoomData)} {pc : String}
    {v : Part000.RoomData} {s : Socket} (hfresh : mapGet m pc = none)
    (h : Part000.sessionOk m s = true) :
    Part000.sessionOk (mapSet m pc v) s = true := by
  cases hr : s.roomId with
  | none => simp [Part000.sessionOk, hr]
  | some rid =>
    simp only [Part000.sessionOk, hr] at h ⊢
    exact roomLiveB_mono_set hfresh h

theorem joinLookupById_live {st : Part000.ServerState} {arg : Option String}
    {rd : Part000.RoomData} (h : Part000.joinLookupById st arg = some rd) :
    Part000.roomLiveB st.rooms rd.roomId = true := by
  cases arg with
  | none => simp [Part000.joinLookupById] at h
  | some rid =>
    simp only [Part000.joinLookupById] at h
    by_cases hre : rid = ""
    · rw [if_pos hre] at h
      exact absurd h (by simp)
    · rw [if_neg hre] at h
      cases hg : mapGet st.roomIds rid with
      | none =>
        rw [hg] at h
        exact absurd h (by simp)
      | some pCode =>
        rw [hg] at h
        exact roomLiveB_of_mapGet h

theorem joinLookup_live {st : Part000.ServerState}
    {passcode roomIdArg : Option String} {rd : Part000.RoomData}
    (h : Part000.joinLookup st passcode roomIdArg = some rd) :
    Part000.roomLiveB st.rooms rd.roomId = true := by
  cases passcode with
  | none =>
    simp only [Part000.joinLookup] at h
    exact joinLookupById_live h
  | some p =>
    simp only [Part000.joinLookup] at h
    by_cases hp : p = ""
    · rw [if_pos hp] at h
      exact joinLookupById_live h
    · rw [if_neg hp] at h
      exact roomLiveB_of_mapGet h

/-- Counterexample to claim C9 as stated: in a state satisfying the session
invariant, firing the expiry deletion leaves the member socket's recorded
`roomId` pointing at the deleted room (`io.socketsLeave` clears adapter
membership but no deletion path clears `socket.roomId`), so the invariant
does not survive the expiry operation. -/
theorem expiry_dangling_membership :
    Part000.sessionInvariant
      (Part000.ServerState.mk [("123456", ⟨"r1", 50⟩)] [("r1", "123456")]
        [Socket.mk 1 (some "r1") (some "Alice") ["r1"]]) = true ∧
    Part000.sessionInvariant
      (Part000.expiryFire
        (Part000.ServerState.mk [("123456", ⟨"r1", 50⟩)] [("r1", "123456")]
          [Socket.mk 1 (some "r1") (some "Alice") ["r1"]])
        "123456" "r1").1 = false := by
  decide

/-- Claim C9 as amended: the connection-event operations — create, join,
quit and disconnect — all preserve the invariant that a session's recorded
room membership is empty or references a live room; the expiry deletion path
is the exception established by the counterexample, since it deletes the
registry entries without clearing the members' membership fields. -/
theorem session_invariant_preserved (st : Part000.ServerState)
    (h : Part000.sessionInvariant st = true) :
    (∀ sid draws rid now st2 emits timer,
      Part000.createRoom st sid draws rid now = some (st2, emits, timer) →
      Part000.sessionInvariant st2 = true) ∧
    (∀ sid passcode roomIdArg name,
      Part000.sessionInvariant
        (Part000.joinRoom st sid passcode roomIdArg name).1 = true) ∧
    (∀ sid, Part000.sessionInvariant (Part000.quitRoom st sid).1 = true) ∧
    (∀ sid,
      Part000.sessionInvariant (Part000.disconnectHandler st sid).1 = true) := by
  refine ⟨?_, ?_, ?_, ?_⟩
  · intro sid draws rid now st2 emits timer hc
    cases hg : Part000.generateUniquePasscode st.rooms draws with
    | none =>
      rw [Part000.createRoom, hg] at hc
      exact absurd hc (by simp)
    | some pc =>
      rw [Part000.createRoom, hg] at hc
      simp only [Option.some.injEq, Prod.mk.injEq] at hc
      obtain ⟨hst2, -, -⟩ := hc
      rw [← hst2]
      have hfresh : mapGet st.rooms pc = none := generateUniquePasscode_fresh hg
      simp only [Part000.sessionInvariant, Part000.updateSocket,
        List.all_eq_true] at h ⊢
      intro x hx
      rw [List.mem_map] at hx
      obtain ⟨s, hsmem, hxeq⟩ := hx
      rw [← hxeq]
      by_cases hsid : s.sid == sid
      · rw [if_pos hsid]
        simp only [Part000.sessionOk]
        exact List.any_eq_true.mpr ⟨(pc, ⟨rid, now + 40 * 60 * 1000⟩),
          List.mem_cons_self _ _, by simp⟩
      · rw [if_neg hsid]
        exact sessionOk_mono_set hfresh (h s hsmem)
  · intro sid passcode roomIdArg name
    cases hl : Part000.joinLookup st passcode roomIdArg with
    | none => simpa [Part000.joinRoom, hl] using h
    | some rd =>
      by_cases hcond : 2 ≤ (membersOf st.sockets rd.roomId).length ∧
        rd.roomId ∉ Part000.socketRoomsOf st sid
      · simp only [Part000.joinRoom, hl]
        rw [if_pos hcond]
        exact h
      · simp only [Part000.joinRoom, hl]
        rw [if_neg hcond]
        have hlive : Part000.roomLiveB st.rooms rd.roomId = true :=
          joinLookup_live hl
        simp only [Part000.sessionInvariant, Part000.updateSocket,
          List.all_eq_true] at h ⊢
        intro x hx
        rw [List.mem_map] at hx
        obtain ⟨s, hsmem, hxeq⟩ := hx
        rw [← hxeq]
        by_cases hsid : s.sid == sid
        · rw [if_pos hsid]
          simp only [Part000.sessionOk]
          exact hlive
        · rw [if_neg hsid]
          exact h s hsmem
  · intro sid
    cases hgs : Part000.getSocket st sid with
    | none =>
      simp only [Part000.quitRoom, hgs]
      exact h
    | some s =>
      cases hr : s.roomId with
      | none =>
        simp only [Part000.quitRoom, hgs, hr]
        exact h
      | some rid =>
        by_cases hre : rid = ""
        · simp only [Part000.quitRoom, hgs, hr]
          rw [if_pos hre]
          exact h
        · simp only [Part000.quitRoom, hgs, hr]
          rw [if_neg hre]
          simp only [Part000.sessionInvariant, Part000.updateSocket,
            List.all_eq_true] at h ⊢
          intro x hx
          rw [List.mem_map] at hx
          obtain ⟨t, htmem, hxeq⟩ := hx
          rw [← hxeq]
          by_cases hsid : t.sid == sid
          · rw [if_pos hsid]
            simp [Part000.sessionOk]
          · rw [if_neg hsid]
            exact h t htmem
  · intro sid
    have hfst : (Part000.disconnectHandler st sid).1 =
        { st with sockets := st.sockets.filter (fun s => s.sid != sid) } := by
      cases hgs : Part000.getSocket st sid with
      | none => simp [Part000.disconnectHandler, hgs]
      | some s =>
        cases hr : s.roomId with
        | none => simp [Part000.disconnectHandler, hgs, hr]
        | some rid =>
          by_cases hre : rid = ""
          · simp [Part000.disconnectHandler, hgs, hr, hre]
          · simp [Part000.disconnectHandler, hgs, hr, hre]
    rw [hfst]
    simp only [Part000.sessionInvariant, List.all_eq_true] at h ⊢
    intro x hx
    exact h x (List.mem_of_mem_filter hx)

/-- Witness for the amended C9: a fresh join into a live room preserves the
session invariant at a concrete state. -/
theorem session_invariant_preserved_witness :
    Part000.sessionInvariant
      (Part000.joinRoom
        (Part000.ServerState.mk [("123456", ⟨"r1", 50⟩)] [("r1", "123456")]
          [Socket.mk 1 (some "r1") (some "Alice") ["r1"],
           Socket.mk 2 none none []]) 2 (some "123456") none
        (some "Bob")).1 = true :=
  (session_invariant_preserved
    (Part000.ServerState.mk [("123456", ⟨"r1", 50⟩)] [("r1", "123456")]
      [Socket.mk 1 (some "r1") (some "Alice") ["r1"],
       Socket.mk 2 none none []]) (by decide)).2.1 2 (some "123456") none
    (some "Bob")

/-- Claim C5 (evaluation at the failing input): the part_000 `sendMessage`
handler performs no payload validation — a sender with room membership who
submits the empty-string payload has it relayed verbatim to the peer as a
`newMessage`, and the sender receives nothing back, in particular no
rejecting `systemMessage`.  This contradicts the claim that empty or
non-string payloads are never relayed and always draw a sender-visible
notice (the behaviour only the server.js variant implements). -/
theorem sendMessage_empty_payload_relayed :
    Part000.sendMessage
      (Part000.ServerState.mk [("123456", ⟨"r1", 50⟩)] [("r1", "123456")]
        [Socket.mk 1 (some "r1") (some "Alice") ["r1"],
         Socket.mk 2 (some "r1") (some "Bob") ["r1"]]) 2 (JsVal.vstr "") =
      [(1, ServerEvent.newMessage (JsVal.vstr "") (some "Bob"))] ∧
    ∀ d ∈ Part000.sendMessage
      (Part000.ServerState.mk [("123456", ⟨"r1", 50⟩)] [("r1", "123456")]
        [Socket.mk 1 (some "r1") (some "Alice") ["r1"],
         Socket.mk 2 (some "r1") (some "Bob") ["r1"]]) 2 (JsVal.vstr ""),
      d.1 ≠ 2 := by
  decide

end BlinkChat
